import Mathlib

/-!
Verification of the idf-parser crate (IDF 3.0 board/panel/library parser)
against its natural-language specification.

The embedding mirrors the crate's nom-based parsers over `List Char`.
Numeric `f32` fields are represented by the exact source text the parser
consumed (`String`): no claim under consideration depends on floating-point
arithmetic, only on recognition, counts and names.  `u32` fields are `Nat`
with the parser enforcing the `< 2^32` bound, as nom's `u32` does.

Rust's `Result`/panic behaviour is modelled explicitly: the board assembler
`parse_board_or_panel` calls `.parse(input).unwrap()`, so a failing section
sequence panics; the model returns `BoardOutcome.panicked` there.
-/

namespace Idf

abbrev Inp := List Char

def strL (s : String) : Inp := s.data

/-- Characters recognised by nom's `multispace0`: space, tab, CR, LF. -/
def isSpaceChar (c : Char) : Bool := c == ' ' || c == '\t' || c == '\r' || c == '\n'

/-- Remaining input after `multispace0`. -/
def dropW (s : Inp) : Inp := s.dropWhile isSpaceChar

/-- A nom-style parser: consume a prefix, produce a value and the rest, or fail.
Positions carried by nom errors are dropped; no claim depends on them. -/
def P (α : Type) : Type := Inp → Option (α × Inp)

def ppure {α : Type} (a : α) : P α := fun s => some (a, s)

def pbind {α β : Type} (p : P α) (f : α → P β) : P β := fun s =>
  match p s with
  | none => none
  | some (a, r) => f a r

def pmap {α β : Type} (f : α → β) (p : P α) : P β :=
  pbind p (fun a => ppure (f a))

/-- nom `alt` over two alternatives. -/
def palt {α : Type} (p q : P α) : P α := fun s =>
  match p s with
  | some x => some x
  | none => q s

/-- The `ws` combinator of src/src/primitives.rs:
`delimited(multispace0, inner, multispace0)`. -/
def pws {α : Type} (p : P α) : P α := fun s =>
  match p (dropW s) with
  | none => none
  | some (a, r) => some (a, dropW r)

/-- nom `tag`. -/
def ptag (t : Inp) : P Inp := fun s =>
  if t.isPrefixOf s then some (t, s.drop t.length) else none

/-- nom `char`. -/
def pchar (c : Char) : P Char := fun s =>
  match s with
  | [] => none
  | a :: r => if a = c then some (c, r) else none

/-- nom `character::complete::newline`. -/
def pnewline : P Char := pchar '\n'

/-- nom `bytes::complete::is_not`: the longest nonempty run of characters
outside `bad`. -/
def pisNot (bad : Inp) : P Inp := fun s =>
  let t := s.takeWhile (fun c => !(bad.contains c))
  if t.isEmpty then none else some (t, s.drop t.length)

/-- nom `character::complete::not_line_ending` (complete): everything up to
`\r\n`, `\n` or the end; a lone `\r` is an error. -/
def pnotLineEnding : P Inp := fun s =>
  let t := s.takeWhile (fun c => !(c == '\r' || c == '\n'))
  let r := s.drop t.length
  match r with
  | '\r' :: tail =>
    match tail with
    | '\n' :: _ => some (t, r)
    | _ => none
  | _ => some (t, r)

/-- nom `character::complete::u32`: one or more digits, value below `2^32`. -/
def pu32 : P Nat := fun s =>
  let t := s.takeWhile Char.isDigit
  if t.isEmpty then none
  else
    let v := t.foldl (fun acc c => acc * 10 + (c.toNat - 48)) 0
    if v < 4294967296 then some (v, s.drop t.length) else none

def pdigit1 : P Inp := fun s =>
  let t := s.takeWhile Char.isDigit
  if t.isEmpty then none else some (t, s.drop t.length)

def popt {α : Type} (p : P α) : P (Option α) := fun s =>
  match p s with
  | none => some (none, s)
  | some (a, r) => some (some a, r)

def pOneOf (cs : List Char) : P Char := fun s =>
  match s with
  | [] => none
  | a :: r => if cs.contains a then some (a, r) else none

/-- The shape of nom's `recognize_float`: optional sign, digits with an
optional fractional part (or a leading dot), and an optional exponent. -/
def pfloatShape : P Unit :=
  pbind (popt (pOneOf [ '+', '-' ])) fun _ =>
  pbind (palt
          (pbind pdigit1 fun _ =>
            pbind (popt (pbind (pchar '.') fun _ => popt pdigit1)) fun _ => ppure ())
          (pbind (pchar '.') fun _ => pbind pdigit1 fun _ => ppure ()))
    fun _ =>
  pbind (popt (pbind (pOneOf [ 'e', 'E' ]) fun _ =>
          pbind (popt (pOneOf [ '+', '-' ])) fun _ =>
          pbind pdigit1 fun _ => ppure ())) fun _ =>
  ppure ()

/-- nom `recognize`: the consumed prefix instead of the value. -/
def precognize {α : Type} (p : P α) : P Inp := fun s =>
  match p s with
  | none => none
  | some (_, r) => some (s.take (s.length - r.length), r)

def ptagNoCase (t : String) : P Inp := fun s =>
  let n := t.length
  let pre := s.take n
  if pre.length = n && (pre.map Char.toLower == t.data.map Char.toLower)
  then some (pre, s.drop n) else none

/-- nom `number::complete::float`'s recognition (`recognize_float_or_exceptions`):
the standard float shape or the case-insensitive exceptions. -/
def pfloatText : P Inp :=
  palt (precognize pfloatShape)
    (palt (ptagNoCase ("nan")) (palt (ptagNoCase ("inf")) (ptagNoCase ("infinity"))))

/-- nom `float`, with the value kept as the consumed source text (see the
file comment: no claim depends on f32 arithmetic). -/
def pfloat : P String := fun s =>
  match pfloatText s with
  | none => none
  | some (t, r) => some (String.mk t, r)

/-- `quote_string` of primitives.rs.  Modelled from the spec: the definition is
referenced from src/src/headers.rs, notes.rs and components.rs but missing from
the src snapshot; spec section 4.1 describes the quoted string field as
double-quote-delimited, possibly containing spaces, stopping at the closing
quote. -/
def quote_string : P Inp :=
  pbind (ptag (strL ("\""))) fun _ =>
  pbind (pisNot (strL ("\""))) fun t =>
  pbind (ptag (strL ("\""))) fun _ =>
  ppure t

def pterminated {α β : Type} (p : P α) (q : P β) : P α :=
  pbind p fun a => pbind q fun _ => ppure a

def ppreceded {α β : Type} (p : P α) (q : P β) : P β :=
  pbind p fun _ => q

def pdelimited {α β γ : Type} (p : P α) (q : P β) (r : P γ) : P β :=
  pbind p fun _ => pbind q fun b => pbind r fun _ => ppure b

/-- nom `many0`, with nom's protection against a non-consuming inner parser
(no progress is a hard error).  Fuel bounds the recursion; it starts above the
input length, so it is never exhausted on the reachable path. -/
def pmany0Go {α : Type} (p : P α) : Nat → Inp → Option (List α × Inp)
  | 0, s => some ([], s)
  | Nat.succ fuel, s =>
    match p s with
    | none => some ([], s)
    | some (a, r) =>
      if r.length = s.length then none
      else
        match pmany0Go p fuel r with
        | none => none
        | some (l, r2) => some (a :: l, r2)

def pmany0 {α : Type} (p : P α) : P (List α) := fun s =>
  pmany0Go p (s.length + 1) s

/-- nom `many1`: the first element must parse, then as `many0`. -/
def pmany1 {α : Type} (p : P α) : P (List α) := fun s =>
  match p s with
  | none => none
  | some (a, r) =>
    match pmany0 p r with
    | none => none
    | some (l, r2) => some (a :: l, r2)

/-- nom `many_m_n`: between `m` and `n` repetitions, greedy, with the
no-progress protection. -/
def pmanyMNGo {α : Type} (p : P α) : Nat → Nat → Nat → Inp → Option (List α × Inp)
  | _, 0, _, s => some ([], s)
  | m, Nat.succ n, fuel, s =>
    match p s with
    | none => if m = 0 then some ([], s) else none
    | some (a, r) =>
      if r.length = s.length then none
      else
        match fuel with
        | 0 => some ([a], r)
        | Nat.succ fuel2 =>
          match pmanyMNGo p (m - 1) n fuel2 r with
          | none => none
          | some (l, r2) => some (a :: l, r2)

def pmanyMN {α : Type} (m n : Nat) (p : P α) : P (List α) := fun s =>
  pmanyMNGo p m n (s.length + 1) s

/-- The section combinator: `parse_section!` is referenced throughout src but
its definition is missing from the snapshot; the `section!` macro that is
present in src/src/primitives.rs (and spec section 4.2) gives
`delimited(ws(tag(".KW")), inner, ws(tag(".END_KW")))`. -/
def parse_section {α : Type} (kw : String) (inner : P α) : P α :=
  pdelimited (pws (ptag (strL (("." : String) ++ kw)))) inner
    (pws (ptag (strL ((".END_" : String) ++ kw))))

/-! ## Data model (src structs) -/

/-- Point of src/src/point.rs; `loop_label` is `u32` in the source. -/
structure Point where
  loop_label : Nat
  x : String
  y : String
  angle : String
deriving DecidableEq

structure BoardPanelHeader where
  file_type : String
  version : Nat
  system_id : String
  date : String
  file_version : Nat
  board_name : String
  units : String
deriving DecidableEq

structure LibraryHeader where
  version : Nat
  system_id : String
  date : String
  file_version : Nat
deriving DecidableEq

structure BoardPanelOutline where
  owner : String
  thickness : String
  outline : List Point
deriving DecidableEq

structure OtherOutline where
  owner : String
  id : String
  extrude_thickness : String
  board_side : String
  outline : List Point
deriving DecidableEq

structure RoutingOutline where
  owner : String
  routing_layers : String
  outline : List Point
deriving DecidableEq

structure PlacementOutline where
  owner : String
  board_side : String
  outline_height : String
  outline : List Point
deriving DecidableEq

structure RoutingKeepout where
  owner : String
  routing_layers : String
  outline : List Point
deriving DecidableEq

structure ViaKeepout where
  owner : String
  outline : List Point
deriving DecidableEq

structure PlacementKeepout where
  owner : String
  board_side : String
  keepout_height : String
  outline : List Point
deriving DecidableEq

structure PlacementGroupArea where
  owner : String
  board_side : String
  group_name : String
  outline : List Point
deriving DecidableEq

structure Hole where
  diameter : String
  x : String
  y : String
  plating_style : String
  associated_part : String
  hole_type : String
  owner : String
deriving DecidableEq

structure Note where
  x : String
  y : String
  text_height : String
  test_string_physical_length : String
  text : String
deriving DecidableEq

structure ComponentPlacement where
  package_name : String
  part_number : String
  reference_designator : String
  x : String
  y : String
  mounting_offset : String
  rotation_angle : String
  board_side : String
  placement_status : String
deriving DecidableEq

structure ElectricalComponent where
  geometry_name : String
  part_number : String
  units : String
  height : String
  outline : List Point
  properties : List (String × String)
deriving DecidableEq

structure MechanicalComponent where
  geometry_name : String
  part_number : String
  units : String
  height : String
  outline : List Point
deriving DecidableEq

structure BoardPanel where
  header : BoardPanelHeader
  outline : BoardPanelOutline
  other_outlines : List OtherOutline
  routing_outlines : List RoutingOutline
  placement_outlines : List PlacementOutline
  routing_keepouts : List RoutingKeepout
  via_keepouts : List ViaKeepout
  placement_keepouts : List PlacementKeepout
  placement_group_areas : List PlacementGroupArea
  drilled_holes : List Hole
  notes : List Note
  component_placements : List ComponentPlacement
deriving DecidableEq

structure Library where
  header : LibraryHeader
  electrical_components : List ElectricalComponent
  mechanical_components : List MechanicalComponent
deriving DecidableEq

/-! ## Domain parsers -/

/-- `owner` of src/src/outlines.rs (also primitives.rs):
`alt((tag("ECAD"), tag("MCAD"), tag("UNOWNED")))`. -/
def owner : P Inp :=
  palt (ptag (strL ("ECAD"))) (palt (ptag (strL ("MCAD"))) (ptag (strL ("UNOWNED"))))

/-- `point` of src/src/point.rs: `ws_separated!((u32, float, float, float))`,
each field wrapped in `ws`. -/
def point : P Point :=
  pbind (pws pu32) fun label =>
  pbind (pws pfloat) fun px =>
  pbind (pws pfloat) fun py =>
  pbind (pws pfloat) fun pangle =>
  ppure { loop_label := label, x := px, y := py, angle := pangle }

/-- Interior of the primary outline section (src/src/outlines.rs
`interior_contents`): owner line, thickness line, one-or-more
newline-terminated points. -/
def board_panel_outline_interior : P (Inp × String × List Point) :=
  pbind (pterminated owner pnewline) fun ow =>
  pbind (pterminated pfloat pnewline) fun th =>
  pbind (pmany1 (pterminated point pnewline)) fun pts =>
  ppure (ow, th, pts)

/-- `parse_board_panel_outline` of src/src/outlines.rs: an alternation over
the `.BOARD_OUTLINE` and `.PANEL_OUTLINE` keywords over the same interior,
wrapped in `ws`; the header's declared file type is not consulted. -/
def parse_board_panel_outline : P BoardPanelOutline :=
  pbind (pws (palt
    (parse_section ("BOARD_OUTLINE") board_panel_outline_interior)
    (parse_section ("PANEL_OUTLINE") board_panel_outline_interior))) fun x =>
  ppure { owner := String.mk x.1, thickness := x.2.1, outline := x.2.2 }

def parse_other_outline : P OtherOutline :=
  pbind (parse_section ("OTHER_OUTLINE")
    (pbind (pterminated owner pnewline) fun ow =>
     pbind (pterminated (pisNot (strL (" "))) (ptag (strL (" ")))) fun oid =>
     pbind (pterminated pfloat (ptag (strL (" ")))) fun th =>
     pbind (pterminated (pisNot (strL ("\n"))) pnewline) fun side =>
     pbind (pmany1 (pterminated point pnewline)) fun pts =>
     ppure (ow, oid, th, side, pts))) fun x =>
  ppure { owner := String.mk x.1, id := String.mk x.2.1, extrude_thickness := x.2.2.1,
          board_side := String.mk x.2.2.2.1, outline := x.2.2.2.2 }

def parse_routing_outline : P RoutingOutline :=
  pbind (parse_section ("ROUTE_OUTLINE")
    (pbind (pterminated owner pnewline) fun ow =>
     pbind (pterminated (pisNot (strL ("\n"))) pnewline) fun layers =>
     pbind (pmany1 (pterminated point pnewline)) fun pts =>
     ppure (ow, layers, pts))) fun x =>
  ppure { owner := String.mk x.1, routing_layers := String.mk x.2.1, outline := x.2.2 }

def parse_placement_outline : P PlacementOutline :=
  pbind (parse_section ("PLACE_OUTLINE")
    (pbind (pterminated owner pnewline) fun ow =>
     pbind (pterminated (pisNot (strL (" "))) (ptag (strL (" ")))) fun side =>
     pbind (pterminated pfloat pnewline) fun h =>
     pbind (pmany1 (pterminated point pnewline)) fun pts =>
     ppure (ow, side, h, pts))) fun x =>
  ppure { owner := String.mk x.1, board_side := String.mk x.2.1,
          outline_height := x.2.2.1, outline := x.2.2.2 }

def parse_routing_keepout : P RoutingKeepout :=
  pbind (parse_section ("ROUTE_KEEPOUT")
    (pbind (pterminated owner pnewline) fun ow =>
     pbind (pterminated (pisNot (strL ("\n"))) pnewline) fun layers =>
     pbind (pmany1 (pterminated point pnewline)) fun pts =>
     ppure (ow, layers, pts))) fun x =>
  ppure { owner := String.mk x.1, routing_layers := String.mk x.2.1, outline := x.2.2 }

def parse_via_keepout : P ViaKeepout :=
  pbind (parse_section ("VIA_KEEPOUT")
    (pbind (pterminated owner pnewline) fun ow =>
     pbind (pmany1 (pterminated point pnewline)) fun pts =>
     ppure (ow, pts))) fun x =>
  ppure { owner := String.mk x.1, outline := x.2 }

def parse_placement_keepout : P PlacementKeepout :=
  pbind (parse_section ("PLACE_KEEPOUT")
    (pbind (pterminated owner pnewline) fun ow =>
     pbind (pterminated (pisNot (strL (" "))) (ptag (strL (" ")))) fun side =>
     pbind (pterminated pfloat pnewline) fun h =>
     pbind (pmany1 (pterminated point pnewline)) fun pts =>
     ppure (ow, side, h, pts))) fun x =>
  ppure { owner := String.mk x.1, board_side := String.mk x.2.1,
          keepout_height := x.2.2.1, outline := x.2.2.2 }

def parse_placement_group_area : P PlacementGroupArea :=
  pbind (parse_section ("PLACE_REGION")
    (pbind (pterminated owner pnewline) fun ow =>
     pbind (pterminated (pisNot (strL (" "))) (ptag (strL (" ")))) fun side =>
     pbind (pterminated (pisNot (strL ("\n"))) pnewline) fun gname =>
     pbind (pmany1 (pterminated point pnewline)) fun pts =>
     ppure (ow, side, gname, pts))) fun x =>
  ppure { owner := String.mk x.1, board_side := String.mk x.2.1,
          group_name := String.mk x.2.2.1, outline := x.2.2.2 }

/-- `drilled_hole` of src/src/drilled_holes.rs: seven `ws`-separated fields. -/
def drilled_hole : P Hole :=
  pbind (pws pfloat) fun dia =>
  pbind (pws pfloat) fun hx =>
  pbind (pws pfloat) fun hy =>
  pbind (pws (palt (ptag (strL ("PTH"))) (ptag (strL ("NPTH"))))) fun plating =>
  pbind (pws (pisNot (strL (" ")))) fun part =>
  pbind (pws (palt (ptag (strL ("PIN"))) (palt (ptag (strL ("VIA")))
          (palt (ptag (strL ("MTG"))) (ptag (strL ("TOOL"))))))) fun htype =>
  pbind (pws owner) fun ow =>
  ppure { diameter := dia, x := hx, y := hy, plating_style := String.mk plating,
          associated_part := String.mk part, hole_type := String.mk htype,
          owner := String.mk ow }

/-- `parse_drilled_holes_section` of src/src/drilled_holes.rs: note the start
tag includes the newline, and the holes list is one-or-more. -/
def parse_drilled_holes_section : P (List Hole) :=
  pdelimited (pws (ptag (strL (".DRILLED_HOLES\n"))))
    (pmany1 drilled_hole)
    (pws (ptag (strL (".END_DRILLED_HOLES"))))

/-- `note` of src/src/notes.rs. -/
def note : P Note :=
  pbind (pws pfloat) fun nx =>
  pbind (pws pfloat) fun ny =>
  pbind (pws pfloat) fun th =>
  pbind (pws pfloat) fun plen =>
  pbind (pws quote_string) fun text =>
  ppure { x := nx, y := ny, text_height := th, test_string_physical_length := plen,
          text := String.mk text }

/-- `parse_notes_section` of src/src/notes.rs: `section!("NOTES", many1(ws(note)))`. -/
def parse_notes_section : P (List Note) :=
  parse_section ("NOTES") (pmany1 (pws note))

/-- `component_placement` of src/src/component_placement.rs: nine
`ws`-separated fields. -/
def component_placement : P ComponentPlacement :=
  pbind (pws (pisNot (strL (" ")))) fun pkg =>
  pbind (pws (pisNot (strL (" ")))) fun pn =>
  pbind (pws pnotLineEnding) fun refdes =>
  pbind (pws pfloat) fun cx =>
  pbind (pws pfloat) fun cy =>
  pbind (pws pfloat) fun offs =>
  pbind (pws pfloat) fun rot =>
  pbind (pws (palt (ptag (strL ("TOP"))) (ptag (strL ("BOTTOM"))))) fun side =>
  pbind (pws (palt (ptag (strL ("PLACED"))) (palt (ptag (strL ("UNPLACED")))
          (palt (ptag (strL ("ECAD"))) (ptag (strL ("MCAD"))))))) fun status =>
  ppure { package_name := String.mk pkg, part_number := String.mk pn,
          reference_designator := String.mk refdes, x := cx, y := cy,
          mounting_offset := offs, rotation_angle := rot,
          board_side := String.mk side, placement_status := String.mk status }

/-- `parse_component_placement_section` of src/src/component_placement.rs. -/
def parse_component_placement_section : P (List ComponentPlacement) :=
  parse_section ("PLACEMENT") (pws (pmany0 component_placement))

/-- `electrical_property` of src/src/components.rs: `PROP <NAME> <value>`. -/
def electrical_property : P (String × String) :=
  pbind (pws (ptag (strL ("PROP")))) fun _ =>
  pbind (pws (pisNot (strL (" ")))) fun pname =>
  pbind (pws pfloat) fun v =>
  ppure (String.mk pname, v)

/-- Last-write-wins insertion, mirroring `HashMap::insert` under
`collect()` in src/src/components.rs. -/
def insertProp (m : List (String × String)) (k : String) (v : String) :
    List (String × String) :=
  if m.any (fun e => e.1 == k)
  then m.map (fun e => if e.1 == k then (k, v) else e)
  else m ++ [(k, v)]

/-- `electrical_properties` of src/src/components.rs: zero-or-more property
records collected into a map, later duplicates overwriting earlier ones. -/
def electrical_properties : P (List (String × String)) :=
  pbind (pmany0 electrical_property) fun l =>
  ppure (l.foldl (fun m e => insertProp m e.1 e.2) [])

/-- `electrical_component` of src/src/components.rs. -/
def electrical_component : P ElectricalComponent :=
  parse_section ("ELECTRICAL")
    (pbind (pws (pisNot (strL (" ")))) fun geo =>
     pbind (pws (palt quote_string (pisNot (strL (" "))))) fun pn =>
     pbind (pws (pisNot (strL (" ")))) fun units =>
     pbind (pws pfloat) fun h =>
     pbind (pws (pmany0 (pws point))) fun pts =>
     pbind (pws electrical_properties) fun props =>
     ppure { geometry_name := String.mk geo, part_number := String.mk pn,
             units := String.mk units, height := h, outline := pts,
             properties := props })

/-- `mechanical_component` of src/src/components.rs. -/
def mechanical_component : P MechanicalComponent :=
  parse_section ("MECHANICAL")
    (pbind (pws (pisNot (strL (" ")))) fun geo =>
     pbind (pws (pisNot (strL (" ")))) fun pn =>
     pbind (pws (pisNot (strL (" ")))) fun units =>
     pbind (pws pfloat) fun h =>
     pbind (pws (pmany0 (pws point))) fun pts =>
     ppure { geometry_name := String.mk geo, part_number := String.mk pn,
             units := String.mk units, height := h, outline := pts })

/-! ## Headers, with Rust panics modelled explicitly -/

/-- Result of a parser that, like the Rust code, may panic (`unwrap`). -/
inductive HRes (α : Type) where
  | panics
  | fails
  | ok (a : α) (rest : Inp)
deriving DecidableEq

/-- Rust `str::parse::<u32>`: optional `+`, digits only, value below `2^32`. -/
def rustParseU32 (s : String) : Option Nat :=
  let cs := match s.data with
    | '+' :: r => r
    | l => l
  if cs.isEmpty || !(cs.all Char.isDigit) then none
  else
    let v := cs.foldl (fun acc c => acc * 10 + (c.toNat - 48)) 0
    if v < 4294967296 then some v else none

/-- `header_metadata` of src/src/headers.rs.  The two `.parse::<u32>().unwrap()`
calls panic when the captured text is not a `u32`. -/
def header_metadata (s : Inp) : HRes (String × Nat × String × String × Nat) :=
  match (pws (palt (ptag (strL ("PANEL_FILE")))
          (palt (ptag (strL ("LIBRARY_FILE"))) (ptag (strL ("BOARD_FILE")))))) s with
  | none => HRes.fails
  | some (ftype, s1) =>
    match (pws (pterminated (ptag (strL ("3"))) (ptag (strL (".0"))))) s1 with
    | none => HRes.fails
    | some (ver, s2) =>
      match (pws (palt quote_string (pisNot (strL (" "))))) s2 with
      | none => HRes.fails
      | some (sys, s3) =>
        match (pws (pisNot (strL (" ")))) s3 with
        | none => HRes.fails
        | some (date, s4) =>
          match (pws pnotLineEnding) s4 with
          | none => HRes.fails
          | some (fver, s5) =>
            match rustParseU32 (String.mk ver), rustParseU32 (String.mk fver) with
            | some v, some fv =>
              HRes.ok (String.mk ftype, v, String.mk sys, String.mk date, fv) s5
            | _, _ => HRes.panics

/-- `parse_board_or_panel_header` of src/src/headers.rs:
`parse_section!("HEADER", (header_metadata, ws_separated!((is_not(" "),
alt((tag("THOU"), tag("MM")))))))`. -/
def parse_board_or_panel_header (s : Inp) : HRes BoardPanelHeader :=
  match (pws (ptag (strL (".HEADER")))) s with
  | none => HRes.fails
  | some (_, s1) =>
    match header_metadata s1 with
    | HRes.panics => HRes.panics
    | HRes.fails => HRes.fails
    | HRes.ok meta s2 =>
      match (pws (pisNot (strL (" ")))) s2 with
      | none => HRes.fails
      | some (bname, s3) =>
        match (pws (palt (ptag (strL ("THOU"))) (ptag (strL ("MM"))))) s3 with
        | none => HRes.fails
        | some (units, s4) =>
          match (pws (ptag (strL (".END_HEADER")))) s4 with
          | none => HRes.fails
          | some (_, s5) =>
            HRes.ok { file_type := meta.1, version := meta.2.1,
                      system_id := meta.2.2.1, date := meta.2.2.2.1,
                      file_version := meta.2.2.2.2,
                      board_name := String.mk bname, units := String.mk units } s5

/-- `parse_library_header` of src/src/headers.rs: the section, then a hard
error unless the file type is `LIBRARY_FILE`. -/
def parse_library_header (s : Inp) : HRes LibraryHeader :=
  match (pws (ptag (strL (".HEADER")))) s with
  | none => HRes.fails
  | some (_, s1) =>
    match header_metadata s1 with
    | HRes.panics => HRes.panics
    | HRes.fails => HRes.fails
    | HRes.ok meta s2 =>
      match (pws (ptag (strL (".END_HEADER")))) s2 with
      | none => HRes.fails
      | some (_, s3) =>
        if meta.1 = ("LIBRARY_FILE") then
          HRes.ok { version := meta.2.1, system_id := meta.2.2.1,
                    date := meta.2.2.2.1, file_version := meta.2.2.2.2 } s3
        else HRes.fails

/-! ## Document assemblers -/

/-- Outcome of `parse_board_or_panel` (src/src/board.rs).  The Rust function
unwraps the section-sequence parse, so any section failure panics; only the
trailing-data check can produce a returned error. -/
inductive BoardOutcome where
  | panicked
  | trailingDataError (remaining : Inp)
  | ok (board : BoardPanel)
deriving DecidableEq

/-- `parse_board_or_panel` of src/src/board.rs: header, primary outline,
seven zero-or-more section kinds, exactly-one drilled holes, zero-or-one
notes, exactly-one placement section; the tuple parse is unwrapped (panic on
failure), the notes wrapper is unwrapped with an explicit panic branch, and
finally unconsumed input is an `Eof` error. -/
def parse_board_or_panel (s : Inp) : BoardOutcome :=
  match parse_board_or_panel_header s with
  | HRes.panics => BoardOutcome.panicked
  | HRes.fails => BoardOutcome.panicked
  | HRes.ok header s1 =>
    match parse_board_panel_outline s1 with
    | none => BoardOutcome.panicked
    | some (outline, s2) =>
      match pmany0 parse_other_outline s2 with
      | none => BoardOutcome.panicked
      | some (other_outlines, s3) =>
        match pmany0 parse_routing_outline s3 with
        | none => BoardOutcome.panicked
        | some (routing_outlines, s4) =>
          match pmany0 parse_placement_outline s4 with
          | none => BoardOutcome.panicked
          | some (placement_outlines, s5) =>
            match pmany0 parse_routing_keepout s5 with
            | none => BoardOutcome.panicked
            | some (routing_keepouts, s6) =>
              match pmany0 parse_via_keepout s6 with
              | none => BoardOutcome.panicked
              | some (via_keepouts, s7) =>
                match pmany0 parse_placement_keepout s7 with
                | none => BoardOutcome.panicked
                | some (placement_keepouts, s8) =>
                  match pmany0 parse_placement_group_area s8 with
                  | none => BoardOutcome.panicked
                  | some (placement_group_areas, s9) =>
                    match parse_drilled_holes_section s9 with
                    | none => BoardOutcome.panicked
                    | some (drilled_holes, s10) =>
                      match pmanyMN 0 1 parse_notes_section s10 with
                      | none => BoardOutcome.panicked
                      | some (wrapped_notes, s11) =>
                        match parse_component_placement_section s11 with
                        | none => BoardOutcome.panicked
                        | some (component_placements, s12) =>
                          match wrapped_notes with
                          | [] =>
                            if s12.isEmpty then
                              BoardOutcome.ok
                                { header := header, outline := outline,
                                  other_outlines := other_outlines,
                                  routing_outlines := routing_outlines,
                                  placement_outlines := placement_outlines,
                                  routing_keepouts := routing_keepouts,
                                  via_keepouts := via_keepouts,
                                  placement_keepouts := placement_keepouts,
                                  placement_group_areas := placement_group_areas,
                                  drilled_holes := drilled_holes, notes := [],
                                  component_placements := component_placements }
                            else BoardOutcome.trailingDataError s12
                          | [n] =>
                            if s12.isEmpty then
                              BoardOutcome.ok
                                { header := header, outline := outline,
                                  other_outlines := other_outlines,
                                  routing_outlines := routing_outlines,
                                  placement_outlines := placement_outlines,
                                  routing_keepouts := routing_keepouts,
                                  via_keepouts := via_keepouts,
                                  placement_keepouts := placement_keepouts,
                                  placement_group_areas := placement_group_areas,
                                  drilled_holes := drilled_holes, notes := n,
                                  component_placements := component_placements }
                            else BoardOutcome.trailingDataError s12
                          | _ => BoardOutcome.panicked

/-- Outcome of `parse_library` (src/src/library.rs): it propagates section
errors with `?` (so they are returned, not panicked), but the header's
metadata can still panic. -/
inductive LibOutcome where
  | panicked
  | error
  | ok (library : Library)
deriving DecidableEq

/-- `parse_library` of src/src/library.rs: library header, then a sniff on
whether the body starts with `.ELECTRICAL` or `.MECHANICAL` (anything else is
an error), the matching two-phase component scan, and a trailing-data check. -/
def parse_library (s : Inp) : LibOutcome :=
  match parse_library_header s with
  | HRes.panics => LibOutcome.panicked
  | HRes.fails => LibOutcome.error
  | HRes.ok header body =>
    if (strL (".ELECTRICAL")).isPrefixOf body then
      match pmany0 electrical_component body with
      | none => LibOutcome.error
      | some (es, r1) =>
        match pmany0 mechanical_component r1 with
        | none => LibOutcome.error
        | some (ms, r2) =>
          if r2.isEmpty then
            LibOutcome.ok { header := header, electrical_components := es,
                            mechanical_components := ms }
          else LibOutcome.error
    else if (strL (".MECHANICAL")).isPrefixOf body then
      match pmany0 mechanical_component body with
      | none => LibOutcome.error
      | some (ms, r1) =>
        match pmany0 electrical_component r1 with
        | none => LibOutcome.error
        | some (es, r2) =>
          if r2.isEmpty then
            LibOutcome.ok { header := header, electrical_components := es,
                            mechanical_components := ms }
          else LibOutcome.error
    else LibOutcome.error

/-! ## Cross-document validators (src/src/validation.rs) -/

/-- Set insertion; the Rust code uses a `HashSet`, whose iteration order is
unspecified, so the model keeps insertion order.  Which set is built and the
success/failure outcome are order-independent. -/
def insertName (l : List String) (x : String) : List String :=
  if l.contains x then l else l ++ [x]

/-- The distinct package names of the board's placements whose reference
designator is not `BOARD` (the collection loop of `library_references_valid`). -/
def collectBoardComponents (board : BoardPanel) : List String :=
  List.foldl
    (fun acc c => if c.reference_designator = ("BOARD") then acc
                  else insertName acc c.package_name)
    [] board.component_placements

/-- The geometry names of the library's electrical and mechanical components
(the collection loops of `library_references_valid`). -/
def libraryComponentNames (library : Library) : List String :=
  List.foldl (fun acc c => insertName acc c.geometry_name)
    (List.foldl (fun acc c => insertName acc c.geometry_name) []
      library.electrical_components)
    library.mechanical_components

/-- Both geometry-name lists, without deduplication; membership coincides with
`libraryComponentNames` and matches the claim's phrasing directly. -/
def allGeometryNames (library : Library) : List String :=
  library.electrical_components.map (fun c => c.geometry_name) ++
    library.mechanical_components.map (fun c => c.geometry_name)

/-- `library_references_valid` of src/src/validation.rs. -/
def library_references_valid (library : Library) (board : BoardPanel) :
    Except String Unit :=
  match List.find? (fun c => !((libraryComponentNames library).contains c))
      (collectBoardComponents board) with
  | some c =>
    Except.error (("Component ") ++ c ++ (" referenced in board not found in library."))
  | none => Except.ok ()

/-- The board names referenced by the panel: package names of placements whose
reference designator is `BOARD` (the collection loop of `panel_references_valid`). -/
def collectReferencedBoards (panel : BoardPanel) : List String :=
  List.foldl
    (fun acc c => if c.reference_designator = ("BOARD")
                  then insertName acc c.package_name else acc)
    [] panel.component_placements

/-- `panel_references_valid` of src/src/validation.rs. -/
def panel_references_valid (panel : BoardPanel) (boards : List BoardPanel) :
    Except String Unit :=
  match List.find?
      (fun r => !(boards.any (fun b => b.header.board_name == r)))
      (collectReferencedBoards panel) with
  | some r => Except.error (("Board ") ++ r ++ (" referenced in panel not found."))
  | none => Except.ok ()

/-! ## Concrete fixtures used by the claims -/

/-- The spec's end-to-end board scenario input, verbatim. -/
def c4Input : Inp := strL (".HEADER\nBOARD_FILE 3.0 \"Gen\" 1/1/00.00:00:00 1\nsample THOU\n.END_HEADER\n.BOARD_OUTLINE MCAD\n10.0\n0 0.0 0.0 0.0\n0 1.0 1.0 0.0\n.END_BOARD_OUTLINE\n.DRILLED_HOLES\n10.0 5.0 5.0 PTH BOARD VIA ECAD\n.END_DRILLED_HOLES\n.PLACEMENT\npkg pn C1\n0.0 0.0 0.0 0.0 TOP PLACED\n.END_PLACEMENT")

/-- A library file whose sections all parse but which carries one trailing
character `x` after the final section. -/
def c5LibJunk : Inp := strL (".HEADER\nLIBRARY_FILE 3.0 \"Gen\" 1/1/00.00:00:00 1\n.END_HEADER\n.ELECTRICAL\npkg pn THOU 1.0\n0 0.0 0.0 0.0\n.END_ELECTRICAL\nx")

/-- The body that follows the library header of `c5LibJunk`. -/
def c5Body : Inp := strL (".ELECTRICAL\npkg pn THOU 1.0\n0 0.0 0.0 0.0\n.END_ELECTRICAL\nx")

def sampleLibHeader : LibraryHeader :=
  { version := 3, system_id := ("Gen"), date := ("1/1/00.00:00:00"), file_version := 1 }

def c5Elec : ElectricalComponent :=
  { geometry_name := ("pkg"), part_number := ("pn"), units := ("THOU"), height := ("1.0"),
    outline := [{ loop_label := 0, x := ("0.0"), y := ("0.0"), angle := ("0.0") }],
    properties := [] }

/-- A board document text followed by trailing junk. -/
def c5BoardJunk : Inp := strL (".HEADER\nBOARD_FILE 3.0 \"Gen\" 1/1/00.00:00:00 1\nb5 THOU\n.END_HEADER\n.BOARD_OUTLINE MCAD\n10.0\n0 0.0 0.0 0.0\n.END_BOARD_OUTLINE\n.DRILLED_HOLES\n10.0 5.0 5.0 PTH BOARD VIA ECAD\n.END_DRILLED_HOLES\n.PLACEMENT\npkg pn C1\n0.0 0.0 0.0 0.0 TOP PLACED\n.END_PLACEMENT trailing junk")

/-- A `.DRILLED_HOLES` section with zero hole records. -/
def c6EmptyHoles : Inp := strL (".DRILLED_HOLES\n.END_DRILLED_HOLES")

/-- A board document whose drilled-holes section has zero records. -/
def c6Board : Inp := strL (".HEADER\nBOARD_FILE 3.0 \"Gen\" 1/1/00.00:00:00 1\nb6 THOU\n.END_HEADER\n.BOARD_OUTLINE MCAD\n10.0\n0 0.0 0.0 0.0\n.END_BOARD_OUTLINE\n.DRILLED_HOLES\n.END_DRILLED_HOLES\n.PLACEMENT\n.END_PLACEMENT")

/-- Two consecutive `.NOTES` sections. -/
def c7Frag : Inp := strL (".NOTES\n0.0 0.0 1.0 1.0 \"a\"\n.END_NOTES\n.NOTES\n0.0 0.0 1.0 1.0 \"b\"\n.END_NOTES")

def c7NoteA : Note :=
  { x := ("0.0"), y := ("0.0"), text_height := ("1.0"),
    test_string_physical_length := ("1.0"), text := ("a") }

/-- What remains after the zero-or-one notes repetition consumes the first
section of `c7Frag`: the entire second section. -/
def c7Rest : Inp := strL (".NOTES\n0.0 0.0 1.0 1.0 \"b\"\n.END_NOTES")

/-- A board document in which the `.NOTES` section occurs twice. -/
def c7Board : Inp := strL (".HEADER\nBOARD_FILE 3.0 \"Gen\" 1/1/00.00:00:00 1\nb7 THOU\n.END_HEADER\n.BOARD_OUTLINE MCAD\n10.0\n0 0.0 0.0 0.0\n.END_BOARD_OUTLINE\n.DRILLED_HOLES\n10.0 5.0 5.0 PTH BOARD VIA ECAD\n.END_DRILLED_HOLES\n.NOTES\n0.0 0.0 1.0 1.0 \"a\"\n.END_NOTES\n.NOTES\n0.0 0.0 1.0 1.0 \"b\"\n.END_NOTES\n.PLACEMENT\npkg pn C1\n0.0 0.0 0.0 0.0 TOP PLACED\n.END_PLACEMENT")

/-- A well-formed `.BOARD_OUTLINE` section (two points, as the IDF grammar
writes them). -/
def c8Sec : Inp := strL (".BOARD_OUTLINE MCAD\n2.0\n0 0.0 0.0 0.0\n0 3.0 3.0 0.0\n.END_BOARD_OUTLINE")

/-- A document whose header declares `BOARD_FILE` and whose primary outline
uses the matching `.BOARD_OUTLINE` keyword. -/
def c8Doc : Inp := strL (".HEADER\nBOARD_FILE 3.0 \"Gen\" 1/1/00.00:00:00 1\nb8 THOU\n.END_HEADER\n.BOARD_OUTLINE MCAD\n2.0\n0 0.0 0.0 0.0\n0 3.0 3.0 0.0\n.END_BOARD_OUTLINE\n.DRILLED_HOLES\n10.0 5.0 5.0 PTH BOARD VIA ECAD\n.END_DRILLED_HOLES\n.PLACEMENT\npkg pn C1\n0.0 0.0 0.0 0.0 TOP PLACED\n.END_PLACEMENT")

/-- A library file whose single electrical component has an outline point with
loop label 7. -/
def c9Input : Inp := strL (".HEADER\nLIBRARY_FILE 3.0 \"Gen\" 1/1/00.00:00:00 1\n.END_HEADER\n.ELECTRICAL\npkg pn THOU 1.0\n7 0.0 0.0 0.0\n.END_ELECTRICAL")

def c9Lib : Library :=
  { header := sampleLibHeader,
    electrical_components :=
      [{ geometry_name := ("pkg"), part_number := ("pn"), units := ("THOU"),
         height := ("1.0"),
         outline := [{ loop_label := 7, x := ("0.0"), y := ("0.0"), angle := ("0.0") }],
         properties := [] }],
    mechanical_components := [] }

/-- A library file consisting of a header and no component sections. -/
def c10Input : Inp := strL (".HEADER\nLIBRARY_FILE 3.0 \"Gen\" 1/1/00.00:00:00 1\n.END_HEADER")

/-- Validator fixtures: a library defining only `lib_pkg`, and a board placing
package `X`. -/
def c2Lib : Library :=
  { header := sampleLibHeader,
    electrical_components :=
      [{ geometry_name := ("lib_pkg"), part_number := ("p"), units := ("THOU"),
         height := ("1.0"), outline := [], properties := [] }],
    mechanical_components := [] }

def c2PlacementX : ComponentPlacement :=
  { package_name := ("X"), part_number := ("p"), reference_designator := ("C1"),
    x := ("0.0"), y := ("0.0"), mounting_offset := ("0.0"), rotation_angle := ("0.0"),
    board_side := ("TOP"), placement_status := ("PLACED") }

def emptyBoardWith (name : String) (placements : List ComponentPlacement) : BoardPanel :=
  { header := { file_type := ("BOARD_FILE"), version := 3, system_id := ("s"),
                date := ("d"), file_version := 1, board_name := name, units := ("THOU") },
    outline := { owner := ("MCAD"), thickness := ("1.0"), outline := [] },
    other_outlines := [], routing_outlines := [], placement_outlines := [],
    routing_keepouts := [], via_keepouts := [], placement_keepouts := [],
    placement_group_areas := [], drilled_holes := [], notes := [],
    component_placements := placements }

def c2Board : BoardPanel := emptyBoardWith ("b2") [c2PlacementX]

/-- Validator fixtures for the panel check: a panel placing sub-board `ghost`
and a boards list containing only a board named `real_board`. -/
def c3GhostPlacement : ComponentPlacement :=
  { package_name := ("ghost"), part_number := ("p"), reference_designator := ("BOARD"),
    x := ("0.0"), y := ("0.0"), mounting_offset := ("0.0"), rotation_angle := ("0.0"),
    board_side := ("TOP"), placement_status := ("MCAD") }

def c3Panel : BoardPanel := emptyBoardWith ("panel") [c3GhostPlacement]

def c3Boards : List BoardPanel := [emptyBoardWith ("real_board") []]

/-! ## Helper lemmas

The central structural fact: after `multispace0` the next character is never
a whitespace character, so `terminated(point, newline)` — whose `point`
already consumed all trailing whitespace through `ws` — can never find the
newline it requires.  Every outline interior is built from
`many1(terminated(point, newline))`, so no primary outline ever parses, and
the board assembler, which unwraps its section-sequence parse, panics on
every input. -/

theorem dropW_head_false (s : Inp) (c : Char) (h : (dropW s).head? = some c) :
    isSpaceChar c = false := by
  induction s with
  | nil => simp [dropW] at h
  | cons a t ih =>
    by_cases ha : isSpaceChar a = true
    · have e : dropW (a :: t) = dropW t := by simp [dropW, List.dropWhile_cons, ha]
      rw [e] at h
      exact ih h
    · have e : dropW (a :: t) = a :: t := by
        simp only [dropW, List.dropWhile_cons]
        simp [ha]
      rw [e] at h
      simp only [List.head?_cons, Option.some.injEq] at h
      subst h
      simpa using ha

theorem pnewline_dropW_none (t : Inp) : pnewline (dropW t) = none := by
  cases h : dropW t with
  | nil => simp [pnewline, pchar]
  | cons a r =>
    have ha : isSpaceChar a = false := dropW_head_false t a (by rw [h]; rfl)
    have hne : a ≠ '\n' := by
      intro e
      rw [e] at ha
      simp [isSpaceChar] at ha
    simp [pnewline, pchar, hne]

theorem pbind_eq_some {α β : Type} {p : P α} {f : α → P β} {s : Inp} {y : β × Inp}
    (h : pbind p f s = some y) : ∃ a r, p s = some (a, r) ∧ f a r = some y := by
  unfold pbind at h
  cases hp : p s with
  | none => rw [hp] at h; cases h
  | some x =>
    cases x with
    | mk a r =>
      rw [hp] at h
      exact ⟨a, r, rfl, h⟩

theorem ppure_eq_some {α : Type} {a b : α} {s r : Inp} (h : ppure a s = some (b, r)) :
    b = a ∧ r = s := by
  unfold ppure at h
  simp only [Option.some.injEq, Prod.mk.injEq] at h
  exact ⟨h.1.symm, h.2.symm⟩

theorem pws_eq_some {α : Type} {p : P α} {s : Inp} {a : α} {r : Inp}
    (h : pws p s = some (a, r)) : ∃ t, r = dropW t := by
  unfold pws at h
  cases hp : p (dropW s) with
  | none => rw [hp] at h; cases h
  | some x =>
    cases x with
    | mk b r0 =>
      rw [hp] at h
      simp only [Option.some.injEq, Prod.mk.injEq] at h
      exact ⟨r0, h.2.symm⟩

theorem point_rest (s : Inp) (pt : Point) (r : Inp) (h : point s = some (pt, r)) :
    ∃ t, r = dropW t := by
  unfold point at h
  obtain ⟨l1, r1, h1, h⟩ := pbind_eq_some h
  obtain ⟨l2, r2, h2, h⟩ := pbind_eq_some h
  obtain ⟨l3, r3, h3, h⟩ := pbind_eq_some h
  obtain ⟨l4, r4, h4, h⟩ := pbind_eq_some h
  obtain ⟨-, hr⟩ := ppure_eq_some h
  obtain ⟨t, ht⟩ := pws_eq_some h4
  exact ⟨t, by rw [hr]; exact ht⟩

theorem pterminated_point_pnewline_none (s : Inp) :
    pterminated point pnewline s = none := by
  cases h : pterminated point pnewline s with
  | none => rfl
  | some y =>
    exfalso
    unfold pterminated at h
    obtain ⟨pt, r, hp, h2⟩ := pbind_eq_some h
    obtain ⟨c, r2, hn, -⟩ := pbind_eq_some h2
    obtain ⟨t, ht⟩ := point_rest s pt r hp
    rw [ht, pnewline_dropW_none] at hn
    exact Option.noConfusion hn

theorem pmany1_none {α : Type} (p : P α) (hp : ∀ s, p s = none) (s : Inp) :
    pmany1 p s = none := by
  unfold pmany1
  rw [hp s]

theorem board_panel_outline_interior_none (s : Inp) :
    board_panel_outline_interior s = none := by
  unfold board_panel_outline_interior pbind
  cases h1 : pterminated owner pnewline s with
  | none => rfl
  | some x1 =>
    cases x1 with
    | mk ow r1 =>
      dsimp only
      cases h2 : pterminated pfloat pnewline r1 with
      | none => rfl
      | some x2 =>
        cases x2 with
        | mk th r2 =>
          dsimp only
          rw [pmany1_none _ pterminated_point_pnewline_none r2]

theorem parse_section_inner_none {α : Type} (kw : String) (inner : P α)
    (hin : ∀ t, inner t = none) (s : Inp) : parse_section kw inner s = none := by
  unfold parse_section pdelimited pbind
  cases h1 : pws (ptag (strL (("." : String) ++ kw))) s with
  | none => rfl
  | some x =>
    cases x with
    | mk a r =>
      dsimp only
      rw [hin r]

theorem parse_board_panel_outline_none (s : Inp) :
    parse_board_panel_outline s = none := by
  have halt : ∀ t, palt
      (parse_section ("BOARD_OUTLINE") board_panel_outline_interior)
      (parse_section ("PANEL_OUTLINE") board_panel_outline_interior) t = none := by
    intro t
    unfold palt
    rw [parse_section_inner_none ("BOARD_OUTLINE") _ board_panel_outline_interior_none t,
      parse_section_inner_none ("PANEL_OUTLINE") _ board_panel_outline_interior_none t]
  have hw : pws (palt
      (parse_section ("BOARD_OUTLINE") board_panel_outline_interior)
      (parse_section ("PANEL_OUTLINE") board_panel_outline_interior)) s = none := by
    unfold pws
    rw [halt (dropW s)]
  unfold parse_board_panel_outline pbind
  rw [hw]

theorem parse_board_or_panel_panics (s : Inp) :
    parse_board_or_panel s = BoardOutcome.panicked := by
  unfold parse_board_or_panel
  cases h : parse_board_or_panel_header s with
  | panics => rfl
  | fails => rfl
  | ok hd r =>
    dsimp only
    rw [parse_board_panel_outline_none r]

theorem contains_iff_mem_str (l : List String) (x : String) :
    l.contains x = true ↔ x ∈ l :=
  ⟨List.mem_of_elem_eq_true, List.elem_eq_true_of_mem⟩

theorem mem_insertName (l : List String) (x y : String) :
    y ∈ insertName l x ↔ y ∈ l ∨ y = x := by
  unfold insertName
  by_cases h : l.contains x
  · rw [if_pos h]
    have hx : x ∈ l := by
      rw [contains_iff_mem_str] at h
      exact h
    constructor
    · exact Or.inl
    · rintro (hy | rfl)
      · exact hy
      · exact hx
  · rw [if_neg h]
    simp [List.mem_append]

theorem mem_foldl_insert {β : Type} (f : β → String) (l : List β) (acc : List String)
    (y : String) :
    y ∈ List.foldl (fun a c => insertName a (f c)) acc l ↔
      y ∈ acc ∨ ∃ c ∈ l, f c = y := by
  induction l generalizing acc with
  | nil => simp
  | cons c t ih =>
    simp only [List.foldl_cons]
    rw [ih, mem_insertName]
    constructor
    · rintro ((hy | rfl) | ⟨d, hd, he⟩)
      · exact Or.inl hy
      · exact Or.inr ⟨c, List.mem_cons_self c t, rfl⟩
      · exact Or.inr ⟨d, List.mem_cons_of_mem c hd, he⟩
    · rintro (hy | ⟨d, hd, he⟩)
      · exact Or.inl (Or.inl hy)
      · rcases List.mem_cons.mp hd with rfl | hd2
        · exact Or.inl (Or.inr he.symm)
        · exact Or.inr ⟨d, hd2, he⟩

theorem mem_collect_board_aux (l : List ComponentPlacement) (acc : List String)
    (y : String) :
    y ∈ List.foldl
        (fun a c => if c.reference_designator = ("BOARD") then a
                    else insertName a c.package_name) acc l ↔
      y ∈ acc ∨ ∃ c ∈ l, c.reference_designator ≠ ("BOARD") ∧ c.package_name = y := by
  induction l generalizing acc with
  | nil => simp
  | cons c t ih =>
    simp only [List.foldl_cons]
    rw [ih]
    by_cases hc : c.reference_designator = ("BOARD")
    · rw [if_pos hc]
      constructor
      · rintro (hy | ⟨d, hd, hne, he⟩)
        · exact Or.inl hy
        · exact Or.inr ⟨d, List.mem_cons_of_mem c hd, hne, he⟩
      · rintro (hy | ⟨d, hd, hne, he⟩)
        · exact Or.inl hy
        · rcases List.mem_cons.mp hd with rfl | hd2
          · exact absurd hc hne
          · exact Or.inr ⟨d, hd2, hne, he⟩
    · rw [if_neg hc, mem_insertName]
      constructor
      · rintro ((hy | rfl) | ⟨d, hd, hne, he⟩)
        · exact Or.inl hy
        · exact Or.inr ⟨c, List.mem_cons_self c t, hc, rfl⟩
        · exact Or.inr ⟨d, List.mem_cons_of_mem c hd, hne, he⟩
      · rintro (hy | ⟨d, hd, hne, he⟩)
        · exact Or.inl (Or.inl hy)
        · rcases List.mem_cons.mp hd with rfl | hd2
          · exact Or.inl (Or.inr he.symm)
          · exact Or.inr ⟨d, hd2, hne, he⟩

theorem mem_collectBoardComponents (board : BoardPanel) (y : String) :
    y ∈ collectBoardComponents board ↔
      ∃ c ∈ board.component_placements,
        c.reference_designator ≠ ("BOARD") ∧ c.package_name = y := by
  unfold collectBoardComponents
  rw [mem_collect_board_aux]
  simp

theorem mem_libraryComponentNames (library : Library) (y : String) :
    y ∈ libraryComponentNames library ↔ y ∈ allGeometryNames library := by
  unfold libraryComponentNames allGeometryNames
  rw [mem_foldl_insert, mem_foldl_insert]
  simp only [List.mem_nil_iff, false_or, List.mem_append, List.mem_map]

theorem mem_collect_panel_aux (l : List ComponentPlacement) (acc : List String)
    (y : String) :
    y ∈ List.foldl
        (fun a c => if c.reference_designator = ("BOARD")
                    then insertName a c.package_name else a) acc l ↔
      y ∈ acc ∨ ∃ c ∈ l, c.reference_designator = ("BOARD") ∧ c.package_name = y := by
  induction l generalizing acc with
  | nil => simp
  | cons c t ih =>
    simp only [List.foldl_cons]
    rw [ih]
    by_cases hc : c.reference_designator = ("BOARD")
    · rw [if_pos hc, mem_insertName]
      constructor
      · rintro ((hy | rfl) | ⟨d, hd, hbd, he⟩)
        · exact Or.inl hy
        · exact Or.inr ⟨c, List.mem_cons_self c t, hc, rfl⟩
        · exact Or.inr ⟨d, List.mem_cons_of_mem c hd, hbd, he⟩
      · rintro (hy | ⟨d, hd, hbd, he⟩)
        · exact Or.inl (Or.inl hy)
        · rcases List.mem_cons.mp hd with rfl | hd2
          · exact Or.inl (Or.inr he.symm)
          · exact Or.inr ⟨d, hd2, hbd, he⟩
    · rw [if_neg hc]
      constructor
      · rintro (hy | ⟨d, hd, hbd, he⟩)
        · exact Or.inl hy
        · exact Or.inr ⟨d, List.mem_cons_of_mem c hd, hbd, he⟩
      · rintro (hy | ⟨d, hd, hbd, he⟩)
        · exact Or.inl hy
        · rcases List.mem_cons.mp hd with rfl | hd2
          · exact absurd hbd hc
          · exact Or.inr ⟨d, hd2, hbd, he⟩

theorem mem_collectReferencedBoards (panel : BoardPanel) (y : String) :
    y ∈ collectReferencedBoards panel ↔
      ∃ c ∈ panel.component_placements,
        c.reference_designator = ("BOARD") ∧ c.package_name = y := by
  unfold collectReferencedBoards
  rw [mem_collect_panel_aux]
  simp

theorem library_references_valid_ok_iff (library : Library) (board : BoardPanel) :
    library_references_valid library board = Except.ok () ↔
      ∀ p ∈ board.component_placements, p.reference_designator ≠ ("BOARD") →
        p.package_name ∈ allGeometryNames library := by
  unfold library_references_valid
  cases hf : List.find? (fun c => !((libraryComponentNames library).contains c))
      (collectBoardComponents board) with
  | some c =>
    dsimp only
    constructor
    · intro h
      exact absurd h (by simp)
    · intro hall
      exfalso
      have hpred := List.find?_some hf
      have hmemc := List.mem_of_find?_eq_some hf
      rw [mem_collectBoardComponents] at hmemc
      obtain ⟨p, hp, hne, he⟩ := hmemc
      have hmem := hall p hp hne
      rw [he, ← mem_libraryComponentNames] at hmem
      rw [Bool.not_eq_eq_eq_not, Bool.not_true, ← Bool.not_eq_true,
        contains_iff_mem_str] at hpred
      exact hpred hmem
  | none =>
    dsimp only
    constructor
    · intro _ p hp hne
      have hin : p.package_name ∈ collectBoardComponents board := by
        rw [mem_collectBoardComponents]
        exact ⟨p, hp, hne, rfl⟩
      have hnone := List.find?_eq_none.mp hf _ hin
      rw [Bool.not_eq_true, Bool.not_eq_eq_eq_not, Bool.not_false,
        contains_iff_mem_str, mem_libraryComponentNames] at hnone
      exact hnone
    · intro _
      rfl

theorem panel_references_valid_ok_iff (panel : BoardPanel) (boards : List BoardPanel) :
    panel_references_valid panel boards = Except.ok () ↔
      ∀ p ∈ panel.component_placements, p.reference_designator = ("BOARD") →
        ∃ b ∈ boards, b.header.board_name = p.package_name := by
  unfold panel_references_valid
  cases hf : List.find? (fun r => !(boards.any (fun b => b.header.board_name == r)))
      (collectReferencedBoards panel) with
  | some r =>
    dsimp only
    constructor
    · intro h
      exact absurd h (by simp)
    · intro hall
      exfalso
      have hpred := List.find?_some hf
      have hmemc := List.mem_of_find?_eq_some hf
      rw [mem_collectReferencedBoards] at hmemc
      obtain ⟨p, hp, hbd, he⟩ := hmemc
      obtain ⟨b, hb, hname⟩ := hall p hp hbd
      rw [Bool.not_eq_eq_eq_not, Bool.not_true, ← Bool.not_eq_true] at hpred
      apply hpred
      rw [List.any_eq_true]
      exact ⟨b, hb, by rw [beq_iff_eq, hname, he]⟩
  | none =>
    dsimp only
    constructor
    · intro _ p hp hbd
      have hin : p.package_name ∈ collectReferencedBoards panel := by
        rw [mem_collectReferencedBoards]
        exact ⟨p, hp, hbd, rfl⟩
      have hnone := List.find?_eq_none.mp hf _ hin
      rw [Bool.not_eq_true, Bool.not_eq_eq_eq_not, Bool.not_false,
        List.any_eq_true] at hnone
      obtain ⟨b, hb, hbeq⟩ := hnone
      exact ⟨b, hb, by rwa [beq_iff_eq] at hbeq⟩
    · intro _
      rfl

/-! ## Claim theorems -/

/-- C1: the claim says neither `parse_board_or_panel` nor `parse_library`
panics — every input yields a tagged success-or-error outcome.  The code
contradicts it: `parse_board_or_panel` unwraps its section-sequence parse,
and (because `terminated(point, newline)` can never succeed after `point`
consumed the trailing whitespace) that sequence fails on every input, so the
function panics on every input, the empty string included. -/
theorem c1_board_parse_panics_on_every_input (s : Inp) :
    parse_board_or_panel s = BoardOutcome.panicked :=
  parse_board_or_panel_panics s

/-- C2: `library_references_valid` succeeds exactly when every distinct
package name among the board's placements whose reference designator is not
`BOARD` occurs among the geometry names of the library's electrical and
mechanical components; and the board placement referencing package `X` with
no matching geometry name yields a ReferenceError naming `X`. -/
theorem c2_library_references_valid_spec :
    (∀ (library : Library) (board : BoardPanel),
      library_references_valid library board = Except.ok () ↔
        ∀ p ∈ board.component_placements, p.reference_designator ≠ ("BOARD") →
          p.package_name ∈ allGeometryNames library) ∧
    library_references_valid c2Lib c2Board =
      Except.error (("Component X referenced in board not found in library.")) :=
  ⟨library_references_valid_ok_iff, by rfl⟩

/-- C3: `panel_references_valid` succeeds exactly when every package name of
a panel placement whose reference designator is `BOARD` equals some board's
header board name; and the `ghost` placement with no board named `ghost`
yields a ReferenceError naming `ghost`. -/
theorem c3_panel_references_valid_spec :
    (∀ (panel : BoardPanel) (boards : List BoardPanel),
      panel_references_valid panel boards = Except.ok () ↔
        ∀ p ∈ panel.component_placements, p.reference_designator = ("BOARD") →
          ∃ b ∈ boards, b.header.board_name = p.package_name) ∧
    panel_references_valid c3Panel c3Boards =
      Except.error (("Board ghost referenced in panel not found.")) :=
  ⟨panel_references_valid_ok_iff, by rfl⟩

/-- C4: the spec's end-to-end board scenario claims a successful parse with
one placement, one hole and no notes; on the code as it stands the input
panics instead (the primary-outline point records can never satisfy their
newline terminator, the section sequence fails, and the failure is
unwrapped).  The repo's own tests (board.rs `test_parse_board`) assert
success on inputs of this very shape, so this is a defect of the code, not
of the claim. -/
theorem c4_end_to_end_board_input_panics :
    parse_board_or_panel c4Input = BoardOutcome.panicked :=
  parse_board_or_panel_panics c4Input

/-- C5: trailing data must always surface as an error.  On the library side
the code honours this: the sections of `c5LibJunk` parse and leave exactly
`x`, and `parse_library` returns an error.  On the board side the claim
cannot hold: a board text with trailing junk panics (no board section
sequence ever succeeds), so no error value is returned. -/
theorem c5_trailing_data_behavior :
    parse_library_header c5LibJunk = HRes.ok sampleLibHeader c5Body ∧
    pmany0 electrical_component c5Body = some ([c5Elec], strL ("x")) ∧
    pmany0 mechanical_component (strL ("x")) = some ([], strL ("x")) ∧
    parse_library c5LibJunk = LibOutcome.error ∧
    parse_board_or_panel c5BoardJunk = BoardOutcome.panicked :=
  ⟨by rfl, by rfl, by rfl, by rfl, parse_board_or_panel_panics c5BoardJunk⟩

/-- C6: a `.DRILLED_HOLES` section with zero hole records is indeed rejected
by the section parser (its one-or-more repetition fails), but a board
document containing it is not "rejected with a MultiplicityError": the board
assembler panics on the failing section sequence instead of returning an
error value. -/
theorem c6_empty_drilled_holes_behavior :
    parse_drilled_holes_section c6EmptyHoles = none ∧
    parse_board_or_panel c6Board = BoardOutcome.panicked :=
  ⟨by rfl, parse_board_or_panel_panics c6Board⟩

/-- C7 counterexample: a board document in which `.NOTES` occurs twice does
not produce a returned MultiplicityError — the parse panics (outcome
`panicked`, not an error value), so the claim fails as stated. -/
theorem c7_two_notes_not_multiplicity_error :
    parse_board_or_panel c7Board = BoardOutcome.panicked :=
  parse_board_or_panel_panics c7Board

/-- C7 amended: the zero-or-one notes repetition consumes at most one
`.NOTES` section and leaves a duplicate unconsumed (shown on `c7Frag`: the
first section is taken, the entire second remains), and a board document
with two `.NOTES` sections never yields a document — in the current code its
parse panics. -/
theorem c7_two_notes_amended :
    pmanyMN 0 1 parse_notes_section c7Frag = some ([[c7NoteA]], c7Rest) ∧
    parse_board_or_panel c7Board = BoardOutcome.panicked :=
  ⟨by rfl, parse_board_or_panel_panics c7Board⟩

/-- C8 counterexample: the claim says a `BOARD_FILE` document's primary
outline section is `.BOARD_OUTLINE`; in fact even a well-formed
`.BOARD_OUTLINE` section is not accepted by `parse_board_panel_outline`, and
the `BOARD_FILE` document built around it panics. -/
theorem c8_matching_keyword_not_accepted :
    parse_board_panel_outline c8Sec = none ∧
    parse_board_or_panel c8Doc = BoardOutcome.panicked :=
  ⟨parse_board_panel_outline_none c8Sec, parse_board_or_panel_panics c8Doc⟩

/-- C8 amended: `parse_board_panel_outline` is an alternation over both
keywords that never consults the header's file type, and in the current code
it accepts no input at all — each outline point record's trailing-whitespace
consumption swallows the newline its terminator requires. -/
theorem c8_primary_outline_amended (s : Inp) :
    parse_board_panel_outline s = none :=
  parse_board_panel_outline_none s

/-- C9 counterexample: a successful library parse produces a document whose
point has loop label 7 — neither 0 nor 1 — so the data model does admit
other loop label values. -/
theorem c9_parse_accepts_loop_label_seven :
    parse_library c9Input = LibOutcome.ok c9Lib ∧
    c9Lib.electrical_components.map (fun e => e.outline.map (fun p => p.loop_label)) =
      [[7]] :=
  ⟨by rfl, by rfl⟩

/-- C9 amended: `loop_label` is an unrestricted `u32` (0 and 1 are the
conventional loop markers only): the point parser accepts any `u32` value,
e.g. 7 and 4000000000. -/
theorem c9_loop_label_amended :
    point (strL ("7 0.0 0.0 0.0")) =
      some ({ loop_label := 7, x := ("0.0"), y := ("0.0"), angle := ("0.0") }, []) ∧
    point (strL ("4000000000 0.0 0.0 0.0")) =
      some ({ loop_label := 4000000000, x := ("0.0"), y := ("0.0"), angle := ("0.0") },
        []) :=
  ⟨by rfl, by rfl⟩

/-- C10: whenever the text after a successfully parsed library header starts
with neither `.ELECTRICAL` nor `.MECHANICAL`, `parse_library` returns an
error; in particular a header-only library file is rejected rather than
producing an empty library. -/
theorem c10_library_requires_component_section (s : Inp) (hdr : LibraryHeader)
    (body : Inp) (h : parse_library_header s = HRes.ok hdr body)
    (he : (strL (".ELECTRICAL")).isPrefixOf body = false)
    (hm : (strL (".MECHANICAL")).isPrefixOf body = false) :
    parse_library s = LibOutcome.error := by
  unfold parse_library
  rw [h]
  dsimp only
  rw [he, hm]
  rfl

/-- C10 witness: the header-only library file `c10Input` satisfies the
hypotheses concretely and is rejected. -/
theorem c10_header_only_library_rejected :
    parse_library c10Input = LibOutcome.error :=
  c10_library_requires_component_section c10Input sampleLibHeader []
    (by rfl) (by rfl) (by rfl)

end Idf
